import Mathlib

/-!
Verification development for the coreason-api orchestration layer.

The definitions below are a shallow embedding of the Python source:
 - `run_agent` embeds `src/coreason_api/routers/runtime.py::run_agent`,
 - `publish_agent` embeds `src/coreason_api/routers/architect.py::publish_agent`,
 - `traceDispatch` embeds `src/coreason_api/middleware.py::TraceIDMiddleware.dispatch`,
 - `serverErrorWrap` embeds the catch-all exception handler registered in
   `src/coreason_api/main.py::create_app`,
 - `vaultSettingsSourceCall` and `resolveField` embed the settings resolution of
   `src/coreason_api/config.py` together with `src/coreason_api/adapters.py::VaultAdapter`.

External ports (identity, policy, budget, audit, execution, manifest, sealing,
vault) are modelled as request-scoped outcome values: each port call either
returns a value or raises, exactly the two behaviours the routers distinguish.
-/

/-- A JSON-like value, the payload type flowing through the pipeline. -/
inductive Val where
  | str (s : String)
  | num (n : Int)
  | bool (b : Bool)
  | null
  deriving DecidableEq, Repr

/-- Python dict lookup `d.get(k)`: the value at the first matching key, if any. -/
def dictGet {α : Type} : List (String × α) → String → Option α
  | [], _ => none
  | (k0, v0) :: rest, k => if k0 = k then some v0 else dictGet rest k

/-- Python dict assignment `d[k] = v`: replace the value at an existing key,
otherwise append the new binding at the end (Python dicts preserve insertion
order and hold at most one binding per key). -/
def dictSet {α : Type} : List (String × α) → String → α → List (String × α)
  | [], k, v => [(k, v)]
  | (k0, v0) :: rest, k, v =>
    if k0 = k then (k0, v) :: rest else (k0, v0) :: dictSet rest k v

/-- The user context returned by the identity port on successful token
validation (`coreason_identity.models.UserContext`); `run_agent` reads the
authenticated subject from the `sub` field. -/
structure UserContext where
  sub : String
  email : String
  project_context : Option String
  permissions : List String
  deriving DecidableEq, Repr

/-- Request body of `POST /v1/run/agent_id` (`runtime.py::RunRequest`).
The claims under verification never compute with `cost_estimate`, so the float
is embedded as an integer that is only passed along. -/
structure RunRequest where
  input_data : List (String × Val)
  session_context : Option (List (String × Val))
  cost_estimate : Int
  deriving DecidableEq, Repr

/-- Outcome of `identity.validate_token`: a user context, or an exception. -/
inductive AuthOutcome where
  | ok (ctx : UserContext)
  | exn (msg : String)
  deriving DecidableEq, Repr

/-- Outcome of `policy_guard.verify_access`: a returned boolean, a
`ComplianceViolationError`, or any other exception. -/
inductive PolicyOutcome where
  | ret (allowed : Bool)
  | compliance (msg : String)
  | exn (msg : String)
  deriving DecidableEq, Repr

/-- Outcome of `budget.check_quota`: a returned boolean, or an exception. -/
inductive BudgetOutcome where
  | ret (allowed : Bool)
  | exn (msg : String)
  deriving DecidableEq, Repr

/-- Outcome of `auditor.log_event`: success, or an exception. -/
inductive AuditOutcome where
  | ok
  | exn (msg : String)
  deriving DecidableEq, Repr

/-- Outcome of `mcp.execute_agent`: a result payload, or an exception. -/
inductive ExecOutcome where
  | ok (result : Val)
  | exn (msg : String)
  deriving DecidableEq, Repr

/-- Behaviour of the five external ports for one request. The audit port is a
function of the event type, since `run_agent` logs up to three distinct events
and each call may fail independently. -/
structure Ports where
  validateToken : String → AuthOutcome
  verifyAccess : PolicyOutcome
  checkQuota : BudgetOutcome
  logEvent : String → AuditOutcome
  executeAgent : ExecOutcome

/-- One observed invocation of an external port by the handler.
`scheduleSettlement` records `background_tasks.add_task(budget.record_transaction, ...)`:
the settlement is scheduled, not awaited. -/
inductive Call where
  | validateToken (token : String)
  | verifyAccess (agentId : String)
  | checkQuota (userId : String) (cost : Int)
  | logEvent (eventType : String)
  | executeAgent (agentId : String) (ctx : List (String × Val))
  | scheduleSettlement (userId : String) (amount : Int)
  deriving DecidableEq, Repr

/-- Result of the route handler before any middleware: an `HTTPException`
raised with a status and detail, a 200 `RunResponse`, or an exception that
escapes the handler uncaught. -/
inductive HandlerResult where
  | http (statusCode : Nat) (detail : String)
  | ok (result : Val) (transactionId : String)
  | exn (msg : String)
  deriving DecidableEq, Repr

/-- HTTP status observed by the client. An exception escaping the handler is
turned into a 500 by the application-level exception handler registered in
`main.py::create_app`. -/
def statusOf : HandlerResult → Nat
  | .http s _ => s
  | .ok _ _ => 200
  | .exn _ => 500

/-- Detail string observed by the client on an error response. The global
handler in `main.py` replies with the generic detail for uncaught exceptions. -/
def detailOf : HandlerResult → Option String
  | .http _ d => some d
  | .ok _ _ => none
  | .exn _ => some "Internal Server Error"

/-- Python truthiness of the optional header string: `not authorization` is
true when the header is absent or the empty string. -/
def pyFalsy : Option String → Bool
  | none => true
  | some s => s.isEmpty

/-- Execution context built in step 6 of `run_agent`
(`ctx_data = request.session_context or \x7b\x7d; ctx_data["user_id"] = user_id`):
the caller-supplied session context with the authenticated subject written over
any caller-supplied `user_id` binding. -/
def mergedContext (sessionContext : Option (List (String × Val))) (userId : String) :
    List (String × Val) :=
  dictSet (sessionContext.getD []) "user_id" (Val.str userId)

/-- Shallow embedding of `runtime.py::run_agent`. Returns the handler result
together with the ordered list of port invocations the handler performed. -/
def run_agent (agentId : String) (req : RunRequest) (authorization : Option String)
    (ports : Ports) (freshUuid : String) : HandlerResult × List Call :=
  if pyFalsy authorization then
    (.http 401 "Missing Authorization header", [])
  else
    let token := authorization.getD ""
    match ports.validateToken token with
    | .exn _ => (.http 401 "Invalid authentication credentials", [.validateToken token])
    | .ok userCtx =>
      let userId := userCtx.sub
      let calls1 : List Call := [.validateToken token, .verifyAccess agentId]
      match ports.verifyAccess with
      | .compliance msg => (.http 403 ("Policy violation: " ++ msg), calls1)
      | .exn _ => (.http 500 "Policy check failed", calls1)
      | .ret _ =>
        -- the source discards the return value of verify_access
        let calls2 := calls1 ++ [.checkQuota userId req.cost_estimate]
        match ports.checkQuota with
        | .exn _ => (.http 500 "Error checking budget", calls2)
        | .ret false => (.http 402 "Insufficient quota", calls2)
        | .ret true =>
          let calls3 := calls2 ++ [.logEvent "EXECUTION_START"]
          match ports.logEvent "EXECUTION_START" with
          | .exn _ => (.http 500 "Audit logging failed", calls3)
          | .ok =>
            let ctxData := mergedContext req.session_context userId
            let calls4 := calls3 ++ [.executeAgent agentId ctxData]
            match ports.executeAgent with
            | .exn msg =>
              let calls5 := calls4 ++ [.logEvent "EXECUTION_FAILED"]
              match ports.logEvent "EXECUTION_FAILED" with
              | .exn msg2 => (.exn msg2, calls5)
              | .ok => (.http 500 ("Agent execution failed: " ++ msg), calls5)
            | .ok result =>
              let calls5 := calls4 ++ [.scheduleSettlement userId req.cost_estimate]
              let calls6 := calls5 ++ [.logEvent "EXECUTION_END"]
              match ports.logEvent "EXECUTION_END" with
              | _ => (.ok result freshUuid, calls6)

/-- Whether a call is an invocation of the execution port. -/
def isExecCall : Call → Bool
  | .executeAgent _ _ => true
  | _ => false

/-- Whether the execution port was invoked anywhere in a call trace. -/
def execInvoked (cs : List Call) : Bool := cs.any isExecCall

/-- Whether a call logs the given audit event type. -/
def isLogEventCall (eventType : String) : Call → Bool
  | .logEvent e => e = eventType
  | _ => false

/-! ## Publish-agent pipeline (architect.py) -/

/-- Outcome of `validator.validate(agent_definition)`: success or exception. -/
inductive ValidateOutcome where
  | ok
  | exn (msg : String)
  deriving DecidableEq, Repr

/-- Outcome of `ManifestLoader.load_from_dict`: the parsed definition exposing
`metadata.name`, or an exception. -/
inductive LoadOutcome where
  | ok (metadataName : String)
  | exn (msg : String)
  deriving DecidableEq, Repr

/-- Outcome of `anchor.seal(agent_definition)`: a signature, or an exception. -/
inductive SealOutcome where
  | ok (signature : String)
  | exn (msg : String)
  deriving DecidableEq, Repr

/-- Behaviour of the manifest and sealing ports for one publish request. -/
structure ArchPorts where
  validate : ValidateOutcome
  loadFromDict : LoadOutcome
  sealArtifact : SealOutcome

/-- Result of the publish handler: an `HTTPException`, or a 200
`PublishResponse` with the signature and the literal status `published`. -/
inductive PublishResult where
  | http (statusCode : Nat) (detail : String)
  | ok (signature : String) (statusStr : String)
  deriving DecidableEq, Repr

/-- Single quote character, used when assembling detail messages. -/
def sQuote : String := String.singleton (Char.ofNat 39)

/-- Detail message of the isomorphism failure in `architect.py::publish_agent`,
naming both the caller-supplied slug and the parsed agent name. -/
def isoMsg (slug name : String) : String :=
  "Slug " ++ sQuote ++ slug ++ sQuote ++ " does not match Agent Name " ++ sQuote ++ name ++ sQuote ++
    " (Isomorphism check failed)"

/-- Shallow embedding of `architect.py::publish_agent`. Returns the handler
result together with a flag recording whether the sealing port was invoked. -/
def publish_agent (slug : String) (ports : ArchPorts) : PublishResult × Bool :=
  match ports.validate with
  | .exn m => (.http 400 ("Invalid agent definition: " ++ m), false)
  | .ok =>
    match ports.loadFromDict with
    | .exn m => (.http 400 ("Failed to parse agent definition: " ++ m), false)
    | .ok agentName =>
      if slug ≠ agentName then
        (.http 400 (isoMsg slug agentName), false)
      else
        match ports.sealArtifact with
        | .exn _ => (.http 500 "Failed to seal artifact", true)
        | .ok signature => (.ok signature "published", true)

/-! ## Tracing middleware and application-level exception handling
(middleware.py, main.py) -/

/-- An inbound HTTP request, reduced to its headers. -/
structure Request where
  headers : List (String × String)
  deriving DecidableEq, Repr

/-- An outbound HTTP response: status, body and headers. -/
structure Response where
  statusCode : Nat
  body : String
  headers : List (String × String)
  deriving DecidableEq, Repr

/-- Result of running the inner application on a request: a response, or an
exception that the inner layers did not handle. -/
inductive InnerResult where
  | resp (r : Response)
  | exn (msg : String)
  deriving DecidableEq, Repr

/-- Trace identifier chosen by `TraceIDMiddleware.dispatch`
(`request.headers.get("X-Trace-ID") or str(uuid.uuid4())`): the inbound header
when present and non-empty, otherwise the freshly generated token. -/
def chooseTraceId (req : Request) (freshUuid : String) : String :=
  match dictGet req.headers "X-Trace-ID" with
  | none => freshUuid
  | some s => if s.isEmpty then freshUuid else s

/-- Shallow embedding of `TraceIDMiddleware.dispatch`: run the inner
application and write the trace identifier into the response headers; an
exception raised below propagates through the middleware unchanged, so no
header is written on that path. -/
def traceDispatch (inner : Request → InnerResult) (freshUuid : String)
    (req : Request) : InnerResult :=
  let traceId := chooseTraceId req freshUuid
  match inner req with
  | .resp r => .resp { r with headers := dictSet r.headers "X-Trace-ID" traceId }
  | .exn m => .exn m

/-- Shallow embedding of the catch-all handler registered by
`main.py::create_app` via `app.exception_handler(Exception)`. Starlette mounts
the handler for `Exception` in `ServerErrorMiddleware`, the outermost layer of
the middleware stack, outside every middleware added with `add_middleware`;
it converts an exception escaping the layers below into a fresh
`JSONResponse(500, detail "Internal Server Error")`, built without the inner
layers' headers. -/
def serverErrorWrap (inner : Request → InnerResult) (req : Request) : Response :=
  match inner req with
  | .resp r => r
  | .exn _ => { statusCode := 500, body := "Internal Server Error", headers := [] }

/-- The full application stack of `create_app`: the catch-all exception
handler outermost, then the tracing middleware, then the routed endpoint. -/
def appHandle (endpoint : Request → InnerResult) (freshUuid : String)
    (req : Request) : Response :=
  serverErrorWrap (traceDispatch endpoint freshUuid) req

/-! ## Settings resolution (config.py, adapters.py) -/

/-- Outcome of evaluating a fallible Python expression. -/
inductive PyOutcome where
  | ok
  | exn (msg : String)
  deriving DecidableEq, Repr

/-- Parameter names accepted by `VaultAdapter.__init__` in `adapters.py`
(`def __init__(self) -> None`): none besides `self`. -/
def vaultAdapterInitParams : List String := []

/-- Calling a Python callable with the given keyword-argument names: the call
raises `TypeError` when a keyword does not name a declared parameter. -/
def pyCallKw (params : List String) (kwargs : List String) : PyOutcome :=
  if kwargs.all (fun k => params.contains k) then .ok
  else .exn "TypeError: unexpected keyword argument"

/-- State of the environment and of the secret store during settings
resolution: whether `VAULT_ADDR` is set (otherwise `CoreasonVaultConfig()`
raises `ValidationError`), whether the store is reachable, and the non-null
values it returns per field name. -/
structure VaultEnv where
  vaultAddrSet : Bool
  reachable : Bool
  secrets : String → Option String

/-- Shallow embedding of `config.py::VaultSettingsSource.__call__`: build the
vault config from the environment, construct the adapter with the keyword call
`VaultAdapter(config=vault_config)` checked against the adapter's declared
parameters, then collect every field for which the store returns a non-null
value; any exception along the way is caught and the data collected so far
(nothing, when construction fails) is returned. -/
def vaultSettingsSourceCall (env : VaultEnv) (fields : List String) :
    List (String × String) :=
  match (if env.vaultAddrSet then PyOutcome.ok else PyOutcome.exn "ValidationError") with
  | .exn _ => []
  | .ok =>
    match pyCallKw vaultAdapterInitParams ["config"] with
    | .exn _ => []
    | .ok =>
      if env.reachable then
        fields.filterMap (fun f => (env.secrets f).map (fun v => (f, v)))
      else []

/-- The remaining pydantic-settings sources, per field, in priority order
below the vault source. -/
structure SettingsSources where
  initArgs : String → Option String
  envVars : String → Option String
  dotenv : String → Option String
  fileSecrets : String → Option String
  defaults : String → String

/-- Per-field settings resolution following
`Settings.settings_customise_sources`: the vault source first, then init
arguments, environment variables, dotenv values, file secrets, and finally the
field default. -/
def resolveField (env : VaultEnv) (src : SettingsSources) (fields : List String)
    (f : String) : String :=
  match dictGet (vaultSettingsSourceCall env fields) f with
  | some v => v
  | none =>
    match src.initArgs f with
    | some v => v
    | none =>
      match src.envVars f with
      | some v => v
      | none =>
        match src.dotenv f with
        | some v => v
        | none =>
          match src.fileSecrets f with
          | some v => v
          | none => src.defaults f

/-! ## Shared concrete fixtures for witnesses and counterexamples -/

/-- A concrete authenticated user, as the identity port would return it. -/
def demoUser : UserContext := ⟨"user-1", "test@test.com", none, []⟩

/-- A concrete run request with empty input and no session context. -/
def demoReq : RunRequest := ⟨[], none, 1⟩

/-- Ports where the budget port raises during the quota check and every other
port behaves normally. -/
def c1ports : Ports :=
  ⟨fun _ => .ok demoUser, .ret true, .exn "Redis connection failed",
    fun _ => .ok, .ok (.str "out")⟩

/-- Ports for the C2 witness: every step succeeds. -/
def c2ports : Ports :=
  ⟨fun _ => .ok demoUser, .ret true, .ret true, fun _ => .ok, .ok (.str "out")⟩

/-- A run request whose caller-supplied session context tries to spoof
`user_id`. -/
def spoofReq : RunRequest :=
  ⟨[], some [("user_id", .str "admin"), ("custom", .str "v")], 1⟩

/-- Ports for the C3 witness, part (a): the audit port raises on the start
event. -/
def c3aports : Ports :=
  ⟨fun _ => .ok demoUser, .ret true, .ret true,
    fun e => if e = "EXECUTION_START" then .exn "Audit Down" else .ok,
    .ok (.str "out")⟩

/-- Ports for the C3 witness, part (b): the audit port raises only on the end
event. -/
def c3bports : Ports :=
  ⟨fun _ => .ok demoUser, .ret true, .ret true,
    fun e => if e = "EXECUTION_END" then .exn "Audit Down on End" else .ok,
    .ok (.str "out")⟩

/-- Ports where the policy port returns an explicit `False` deny and every
other port behaves normally. -/
def c5ports : Ports :=
  ⟨fun _ => .ok demoUser, .ret false, .ret true, fun _ => .ok, .ok (.str "out")⟩

/-- Ports for the C5 witness: the policy port raises a compliance violation. -/
def c5wports : Ports :=
  ⟨fun _ => .ok demoUser, .compliance "restricted agent", .ret true,
    fun _ => .ok, .ok (.str "out")⟩

/-- Ports where execution raises and the audit port raises on the secondary
`EXECUTION_FAILED` event. -/
def c6ports : Ports :=
  ⟨fun _ => .ok demoUser, .ret true, .ret true,
    fun e => if e = "EXECUTION_FAILED" then .exn "Audit sink down" else .ok,
    .exn "MCP Error"⟩

/-- Ports for the C6 witness: execution raises and the secondary audit call
succeeds. -/
def c6wports : Ports :=
  ⟨fun _ => .ok demoUser, .ret true, .ret true, fun _ => .ok, .exn "MCP Error"⟩

/-- Manifest and sealing ports for the C7 witness: validation succeeds, the
parsed definition is named `my-agent`, sealing succeeds. -/
def c7ports : ArchPorts := ⟨.ok, .ok "my-agent", .ok "sig-1"⟩

/-- An endpoint returning a fixed 200 response with no headers. -/
def okEndpoint : Request → InnerResult := fun _ => .resp ⟨200, "ok", []⟩

/-- Environment for the C9 failing input: `VAULT_ADDR` is set, the secret
store is reachable and returns a non-null value for `SECRET_KEY`. -/
def c9env : VaultEnv :=
  ⟨true, true, fun f => if f = "SECRET_KEY" then some "vault-secret" else none⟩

/-- Lower-priority sources for the C9 failing input: the environment variable
supplies a different value for `SECRET_KEY`. -/
def c9src : SettingsSources :=
  ⟨fun _ => none, fun f => if f = "SECRET_KEY" then some "env-secret" else none,
    fun _ => none, fun _ => none, fun _ => "built-in-default"⟩

/-! ## Helper lemmas on the dict model -/

theorem dictGet_dictSet_self {α : Type} (d : List (String × α)) (k : String) (v : α) :
    dictGet (dictSet d k v) k = some v := by
  induction d with
  | nil => simp [dictSet, dictGet]
  | cons p rest ih =>
    obtain ⟨k0, v0⟩ := p
    by_cases h : k0 = k
    · simp [dictSet, dictGet, h]
    · simp [dictSet, dictGet, h, ih]

theorem dictSet_dictSet_self {α : Type} (d : List (String × α)) (k : String) (w v : α) :
    dictSet (dictSet d k w) k v = dictSet d k v := by
  induction d with
  | nil => simp [dictSet]
  | cons p rest ih =>
    obtain ⟨k0, v0⟩ := p
    by_cases h : k0 = k
    · simp [dictSet, h]
    · simp [dictSet, h, ih]

/-! ## C4 -/

/-- C4: a run-agent request with no Authorization header gets a 401 with
detail `Missing Authorization header` and an empty port-call trace: none of
the identity, policy, budget, audit or execution ports is invoked. -/
theorem missing_auth_401_no_port_calls (agentId : String) (req : RunRequest)
    (ports : Ports) (fresh : String) :
    run_agent agentId req none ports fresh =
      (.http 401 "Missing Authorization header", []) := by
  simp [run_agent, pyFalsy]

/-! ## C10 -/

/-- C10: a run-agent request whose Authorization header is present but equal
to the empty string behaves exactly as if the header were absent: the result
and the (empty) port-call trace coincide with the missing-header case, so the
endpoint returns 401 with detail `Missing Authorization header` and the empty
credential is never passed to the identity port. -/
theorem empty_auth_header_behaves_as_missing (agentId : String) (req : RunRequest)
    (ports : Ports) (fresh : String) :
    run_agent agentId req (some "") ports fresh =
        run_agent agentId req none ports fresh ∧
    run_agent agentId req (some "") ports fresh =
        (.http 401 "Missing Authorization header", []) := by
  constructor <;>
    · simp [run_agent, pyFalsy]
      intro hfalse
      exact absurd hfalse (by decide)

/-! ## C1 -/

/-- C1 counterexample: with authentication and the policy check passed and the
budget port raising during the quota check, the endpoint returns status 500
(detail `Error checking budget`), not the 402 the claim states. -/
theorem budget_exception_returns_500_not_402 :
    (run_agent "agent-1" demoReq (some "Bearer t") c1ports "uuid-1").1 =
        .http 500 "Error checking budget" ∧
    statusOf (run_agent "agent-1" demoReq (some "Bearer t") c1ports "uuid-1").1 = 500 ∧
    statusOf (run_agent "agent-1" demoReq (some "Bearer t") c1ports "uuid-1").1 ≠ 402 := by
  refine ⟨by decide, by decide, by decide⟩

/-- C1 amended: for every run-agent request that has passed authentication and
the policy check, if the budget port raises any exception during the quota
check the endpoint returns a 500 response with detail `Error checking budget`
(fail-closed: never 200) and the execution port is never invoked. -/
theorem budget_exception_fail_closed_500 (agentId : String) (req : RunRequest)
    (auth : Option String) (ports : Ports) (fresh : String) (u : UserContext)
    (b : Bool) (m : String)
    (hauth : pyFalsy auth = false)
    (hid : ports.validateToken (auth.getD "") = .ok u)
    (hpol : ports.verifyAccess = .ret b)
    (hbud : ports.checkQuota = .exn m) :
    (run_agent agentId req auth ports fresh).1 = .http 500 "Error checking budget" ∧
    execInvoked (run_agent agentId req auth ports fresh).2 = false := by
  simp [run_agent, hauth, hid, hpol, hbud, execInvoked, isExecCall]

/-- C1 witness: the amended theorem applied at a concrete request whose budget
port raises. -/
theorem budget_exception_fail_closed_500_witness :
    pyFalsy (some "Bearer t") = false ∧
    c1ports.validateToken ((some "Bearer t").getD "") = .ok demoUser ∧
    c1ports.verifyAccess = .ret true ∧
    c1ports.checkQuota = .exn "Redis connection failed" ∧
    ((run_agent "agent-1" demoReq (some "Bearer t") c1ports "uuid-1").1 =
        .http 500 "Error checking budget" ∧
      execInvoked (run_agent "agent-1" demoReq (some "Bearer t") c1ports "uuid-1").2 = false) :=
  ⟨by decide, by decide, by decide, by decide,
    budget_exception_fail_closed_500 "agent-1" demoReq (some "Bearer t") c1ports
      "uuid-1" demoUser true "Redis connection failed"
      (by decide) (by decide) (by decide) (by decide)⟩

/-! ## C2 -/

/-- C2: whenever a run-agent request reaches the execution step, the context
passed to the execution port is `mergedContext`, whose `user_id` binding is
the authenticated subject; when the caller supplied no session context the
context is exactly the one-binding dict; and overwriting the caller-supplied
`user_id` value first changes nothing — two requests differing only in that
value produce the same executed context, hence the same identity. -/
theorem executed_context_user_identity (agentId : String) (req : RunRequest)
    (auth : Option String) (ports : Ports) (fresh : String) (u : UserContext)
    (b : Bool)
    (hauth : pyFalsy auth = false)
    (hid : ports.validateToken (auth.getD "") = .ok u)
    (hpol : ports.verifyAccess = .ret b)
    (hbud : ports.checkQuota = .ret true)
    (haud : ports.logEvent "EXECUTION_START" = .ok) :
    Call.executeAgent agentId (mergedContext req.session_context u.sub) ∈
        (run_agent agentId req auth ports fresh).2 ∧
    dictGet (mergedContext req.session_context u.sub) "user_id" =
        some (Val.str u.sub) ∧
    (req.session_context = none →
      mergedContext req.session_context u.sub = [("user_id", Val.str u.sub)]) ∧
    (∀ sc w, mergedContext (some (dictSet sc "user_id" (Val.str w))) u.sub =
        mergedContext (some sc) u.sub) := by
  refine ⟨?_, ?_, ?_, ?_⟩
  · rcases hex : ports.executeAgent with msg | res <;>
      rcases hfail : ports.logEvent "EXECUTION_FAILED" with _ | m2 <;>
        simp [run_agent, hauth, hid, hpol, hbud, haud, hex, hfail]
  · exact dictGet_dictSet_self _ _ _
  · intro hnone
    simp [mergedContext, hnone, dictSet]
  · intro sc w
    simp [mergedContext, dictSet_dictSet_self]

/-- C2 witness: the theorem applied to a spoofing request and to a request
without a session context. -/
theorem executed_context_user_identity_witness :
    pyFalsy (some "Bearer t") = false ∧
    c2ports.validateToken ((some "Bearer t").getD "") = .ok demoUser ∧
    c2ports.verifyAccess = .ret true ∧
    c2ports.checkQuota = .ret true ∧
    c2ports.logEvent "EXECUTION_START" = .ok ∧
    dictGet (mergedContext spoofReq.session_context demoUser.sub) "user_id" =
        some (Val.str demoUser.sub) ∧
    mergedContext demoReq.session_context demoUser.sub =
        [("user_id", Val.str demoUser.sub)] ∧
    mergedContext (some (dictSet [("custom", Val.str "v")] "user_id" (Val.str "admin")))
        demoUser.sub =
      mergedContext (some [("custom", Val.str "v")]) demoUser.sub :=
  ⟨by decide, by decide, by decide, by decide, by decide,
    (executed_context_user_identity "agent-1" spoofReq (some "Bearer t") c2ports
      "uuid-1" demoUser true (by decide) (by decide) (by decide) (by decide)
      (by decide)).2.1,
    (executed_context_user_identity "agent-1" demoReq (some "Bearer t") c2ports
      "uuid-1" demoUser true (by decide) (by decide) (by decide) (by decide)
      (by decide)).2.2.1 (by decide),
    (executed_context_user_identity "agent-1" demoReq (some "Bearer t") c2ports
      "uuid-1" demoUser true (by decide) (by decide) (by decide) (by decide)
      (by decide)).2.2.2 [("custom", Val.str "v")] "admin"⟩

/-! ## C3 -/

/-- C3: past authentication, policy and budget, (a) an exception of the audit
port on the `EXECUTION_START` event yields a 500 with detail
`Audit logging failed` and the execution port is never invoked, while (b) an
exception only on the `EXECUTION_END` event, after a successful execution,
still yields the 200 response carrying the execution result. -/
theorem audit_start_fatal_audit_end_soft (agentId : String) (req : RunRequest)
    (auth : Option String) (ports : Ports) (fresh : String) (u : UserContext)
    (b : Bool)
    (hauth : pyFalsy auth = false)
    (hid : ports.validateToken (auth.getD "") = .ok u)
    (hpol : ports.verifyAccess = .ret b)
    (hbud : ports.checkQuota = .ret true) :
    (∀ m, ports.logEvent "EXECUTION_START" = .exn m →
      (run_agent agentId req auth ports fresh).1 = .http 500 "Audit logging failed" ∧
      execInvoked (run_agent agentId req auth ports fresh).2 = false) ∧
    (∀ res m, ports.logEvent "EXECUTION_START" = .ok →
      ports.executeAgent = .ok res →
      ports.logEvent "EXECUTION_END" = .exn m →
      (run_agent agentId req auth ports fresh).1 = .ok res fresh ∧
      statusOf (run_agent agentId req auth ports fresh).1 = 200) := by
  constructor
  · intro m hm
    simp [run_agent, hauth, hid, hpol, hbud, hm, execInvoked, isExecCall]
  · intro res m hstart hexec hend
    simp [run_agent, hauth, hid, hpol, hbud, hstart, hexec, hend, statusOf]

/-- C3 witness: the theorem applied with an audit port failing on the start
event, then with one failing only on the end event. -/
theorem audit_start_fatal_audit_end_soft_witness :
    pyFalsy (some "Bearer t") = false ∧
    c3aports.logEvent "EXECUTION_START" = .exn "Audit Down" ∧
    ((run_agent "agent-1" demoReq (some "Bearer t") c3aports "uuid-1").1 =
        .http 500 "Audit logging failed" ∧
      execInvoked (run_agent "agent-1" demoReq (some "Bearer t") c3aports "uuid-1").2 =
        false) ∧
    c3bports.logEvent "EXECUTION_END" = .exn "Audit Down on End" ∧
    ((run_agent "agent-1" demoReq (some "Bearer t") c3bports "uuid-1").1 =
        .ok (.str "out") "uuid-1" ∧
      statusOf (run_agent "agent-1" demoReq (some "Bearer t") c3bports "uuid-1").1 =
        200) :=
  ⟨by decide, by decide,
    (audit_start_fatal_audit_end_soft "agent-1" demoReq (some "Bearer t") c3aports
      "uuid-1" demoUser true (by decide) (by decide) (by decide) (by decide)).1
      "Audit Down" (by decide),
    by decide,
    (audit_start_fatal_audit_end_soft "agent-1" demoReq (some "Bearer t") c3bports
      "uuid-1" demoUser true (by decide) (by decide) (by decide) (by decide)).2
      (.str "out") "Audit Down on End" (by decide) (by decide) (by decide)⟩

/-! ## C5 -/

/-- C5 counterexample: with the policy port returning an explicit `False`
deny, the endpoint does not return 403 — the return value is never inspected,
the pipeline proceeds and the request completes with status 200 and the
execution result. -/
theorem policy_false_return_not_403 :
    (run_agent "agent-x" demoReq (some "Bearer t") c5ports "uuid-1").1 =
        .ok (.str "out") "uuid-1" ∧
    statusOf (run_agent "agent-x" demoReq (some "Bearer t") c5ports "uuid-1").1 = 200 ∧
    statusOf (run_agent "agent-x" demoReq (some "Bearer t") c5ports "uuid-1").1 ≠ 403 := by
  refine ⟨by decide, by decide, by decide⟩

/-- C5 amended: in the policy-check step, a compliance-violation exception
yields a 403 carrying the violation message and any other exception yields a
500 `Policy check failed`; the return value of the policy port is not
inspected, so the pipeline behaves identically whatever boolean it returns
and an explicit `False` deny does not yield 403. -/
theorem policy_outcome_mapping (agentId : String) (req : RunRequest)
    (auth : Option String) (ports : Ports) (fresh : String) (u : UserContext)
    (hauth : pyFalsy auth = false)
    (hid : ports.validateToken (auth.getD "") = .ok u) :
    (∀ m, ports.verifyAccess = .compliance m →
      (run_agent agentId req auth ports fresh).1 =
        .http 403 ("Policy violation: " ++ m)) ∧
    (∀ m, ports.verifyAccess = .exn m →
      (run_agent agentId req auth ports fresh).1 = .http 500 "Policy check failed") ∧
    (∀ b1 b2,
      run_agent agentId req auth { ports with verifyAccess := .ret b1 } fresh =
        run_agent agentId req auth { ports with verifyAccess := .ret b2 } fresh) := by
  refine ⟨?_, ?_, ?_⟩
  · intro m hm
    simp [run_agent, hauth, hid, hm]
  · intro m hm
    simp [run_agent, hauth, hid, hm]
  · intro b1 b2
    simp [run_agent, hauth, hid]

/-- C5 witness: the amended theorem applied with a compliance violation, with
a generic policy failure, and with the two possible returned booleans. -/
theorem policy_outcome_mapping_witness :
    pyFalsy (some "Bearer t") = false ∧
    c5wports.validateToken ((some "Bearer t").getD "") = .ok demoUser ∧
    (run_agent "agent-x" demoReq (some "Bearer t") c5wports "uuid-1").1 =
        .http 403 ("Policy violation: " ++ "restricted agent") ∧
    (run_agent "agent-x" demoReq (some "Bearer t")
        { c5wports with verifyAccess := .exn "db error" } "uuid-1").1 =
      .http 500 "Policy check failed" ∧
    run_agent "agent-x" demoReq (some "Bearer t")
        { c5wports with verifyAccess := .ret false } "uuid-1" =
      run_agent "agent-x" demoReq (some "Bearer t")
        { c5wports with verifyAccess := .ret true } "uuid-1" :=
  ⟨by decide, by decide,
    (policy_outcome_mapping "agent-x" demoReq (some "Bearer t") c5wports "uuid-1"
      demoUser (by decide) (by decide)).1 "restricted agent" (by decide),
    (policy_outcome_mapping "agent-x" demoReq (some "Bearer t")
      { c5wports with verifyAccess := .exn "db error" } "uuid-1" demoUser
      (by decide) (by decide)).2.1 "db error" (by decide),
    (policy_outcome_mapping "agent-x" demoReq (some "Bearer t") c5wports "uuid-1"
      demoUser (by decide) (by decide)).2.2 false true⟩

/-! ## C6 -/

/-- C6 counterexample: when the execution port raises and the secondary
`EXECUTION_FAILED` audit call itself raises, the audit exception is not
swallowed — it escapes the handler, so the client receives the generic
`Internal Server Error` detail from the application-level handler instead of
a detail carrying the execution error message. -/
theorem exec_fail_audit_exn_generic_500 :
    (run_agent "agent-1" demoReq (some "Bearer t") c6ports "uuid-1").1 =
        .exn "Audit sink down" ∧
    detailOf (run_agent "agent-1" demoReq (some "Bearer t") c6ports "uuid-1").1 =
        some "Internal Server Error" ∧
    detailOf (run_agent "agent-1" demoReq (some "Bearer t") c6ports "uuid-1").1 ≠
        some ("Agent execution failed: " ++ "MCP Error") := by
  refine ⟨by decide, by decide, by decide⟩

/-- C6 amended: whenever the execution port raises, the handler emits an
`EXECUTION_FAILED` audit event; if that audit call succeeds the request fails
with a 500 whose detail carries the execution error message; the audit call is
not protected, so if it raises its exception escapes the handler and the
application-level handler turns it into a generic 500 `Internal Server Error`. -/
theorem exec_failure_audit_event_and_500 (agentId : String) (req : RunRequest)
    (auth : Option String) (ports : Ports) (fresh : String) (u : UserContext)
    (b : Bool) (m : String)
    (hauth : pyFalsy auth = false)
    (hid : ports.validateToken (auth.getD "") = .ok u)
    (hpol : ports.verifyAccess = .ret b)
    (hbud : ports.checkQuota = .ret true)
    (haud : ports.logEvent "EXECUTION_START" = .ok)
    (hexec : ports.executeAgent = .exn m) :
    (run_agent agentId req auth ports fresh).2.any
        (isLogEventCall "EXECUTION_FAILED") = true ∧
    (ports.logEvent "EXECUTION_FAILED" = .ok →
      (run_agent agentId req auth ports fresh).1 =
        .http 500 ("Agent execution failed: " ++ m)) ∧
    (∀ m2, ports.logEvent "EXECUTION_FAILED" = .exn m2 →
      (run_agent agentId req auth ports fresh).1 = .exn m2 ∧
      statusOf (run_agent agentId req auth ports fresh).1 = 500 ∧
      detailOf (run_agent agentId req auth ports fresh).1 =
        some "Internal Server Error") := by
  refine ⟨?_, ?_, ?_⟩
  · rcases hfail : ports.logEvent "EXECUTION_FAILED" with _ | m2 <;>
      simp [run_agent, hauth, hid, hpol, hbud, haud, hexec, hfail, isLogEventCall]
  · intro hok
    simp [run_agent, hauth, hid, hpol, hbud, haud, hexec, hok]
  · intro m2 hfail
    simp [run_agent, hauth, hid, hpol, hbud, haud, hexec, hfail, statusOf, detailOf]

/-- C6 witness: the amended theorem applied with a succeeding secondary audit
call and with a failing one. -/
theorem exec_failure_audit_event_and_500_witness :
    pyFalsy (some "Bearer t") = false ∧
    c6wports.executeAgent = .exn "MCP Error" ∧
    (run_agent "agent-1" demoReq (some "Bearer t") c6wports "uuid-1").2.any
        (isLogEventCall "EXECUTION_FAILED") = true ∧
    (run_agent "agent-1" demoReq (some "Bearer t") c6wports "uuid-1").1 =
        .http 500 ("Agent execution failed: " ++ "MCP Error") ∧
    ((run_agent "agent-1" demoReq (some "Bearer t") c6ports "uuid-1").1 =
        .exn "Audit sink down" ∧
      statusOf (run_agent "agent-1" demoReq (some "Bearer t") c6ports "uuid-1").1 = 500 ∧
      detailOf (run_agent "agent-1" demoReq (some "Bearer t") c6ports "uuid-1").1 =
        some "Internal Server Error") :=
  ⟨by decide, by decide,
    (exec_failure_audit_event_and_500 "agent-1" demoReq (some "Bearer t") c6wports
      "uuid-1" demoUser true "MCP Error" (by decide) (by decide) (by decide)
      (by decide) (by decide) (by decide)).1,
    (exec_failure_audit_event_and_500 "agent-1" demoReq (some "Bearer t") c6wports
      "uuid-1" demoUser true "MCP Error" (by decide) (by decide) (by decide)
      (by decide) (by decide) (by decide)).2.1 (by decide),
    (exec_failure_audit_event_and_500 "agent-1" demoReq (some "Bearer t") c6ports
      "uuid-1" demoUser true "MCP Error" (by decide) (by decide) (by decide)
      (by decide) (by decide) (by decide)).2.2 "Audit sink down" (by decide)⟩

/-! ## C7 -/

/-- C7: once schema validation and parsing have succeeded, the publish
endpoint returns 400 with the message naming both the caller-supplied slug and
the parsed `metadata.name` exactly when the two strings differ — Lean string
equality is code-point-exact, hence case-sensitive and normalization-free,
matching Python `!=` — and the sealing port is invoked exactly when they are
equal. -/
theorem publish_isomorphism_check (slug name : String) (ports : ArchPorts)
    (hv : ports.validate = .ok)
    (hl : ports.loadFromDict = .ok name) :
    ((publish_agent slug ports).1 = .http 400 (isoMsg slug name) ↔ slug ≠ name) ∧
    ((publish_agent slug ports).2 = true ↔ slug = name) := by
  by_cases h : slug = name
  · rcases hs : ports.sealArtifact with sig | m <;>
      simp [publish_agent, hv, hl, h, hs, isoMsg]
  · simp [publish_agent, hv, hl, h]

/-- C7 witness: the theorem applied at the spec's test vector — slug
`My-Agent` against name `my-agent` yields the 400 isomorphism failure, while
the exactly equal slug reaches sealing. -/
theorem publish_isomorphism_check_witness :
    c7ports.validate = .ok ∧
    c7ports.loadFromDict = .ok "my-agent" ∧
    (publish_agent "My-Agent" c7ports).1 = .http 400 (isoMsg "My-Agent" "my-agent") ∧
    (publish_agent "my-agent" c7ports).2 = true :=
  ⟨by decide, by decide,
    (publish_isomorphism_check "My-Agent" "my-agent" c7ports (by decide)
      (by decide)).1.mpr (by decide),
    (publish_isomorphism_check "my-agent" "my-agent" c7ports (by decide)
      (by decide)).2.mpr rfl⟩

/-! ## C8 -/

/-- C8 counterexample: a request carrying a non-empty inbound `X-Trace-ID`
whose endpoint raises an unhandled exception gets the 500 response built by
the outermost catch-all handler, and that response does not carry the
`X-Trace-ID` header at all. -/
theorem unhandled_exception_response_lacks_trace_header :
    (appHandle (fun _ => .exn "Boom") "uuid-9"
        ⟨[("X-Trace-ID", "trace-123")]⟩).statusCode = 500 ∧
    dictGet (appHandle (fun _ => .exn "Boom") "uuid-9"
        ⟨[("X-Trace-ID", "trace-123")]⟩).headers "X-Trace-ID" = none := by
  refine ⟨by decide, by decide⟩

/-- C8 amended: every response produced by the inner application (successes
and error responses alike) carries the `X-Trace-ID` header, equal to the
inbound header when supplied and non-empty and to the freshly generated token
otherwise; a response produced by the outermost catch-all handler for an
unhandled exception bypasses the middleware and carries no such header. -/
theorem trace_header_on_inner_responses (endpoint : Request → InnerResult)
    (fresh : String) (req : Request) :
    (∀ r, endpoint req = .resp r →
      dictGet (appHandle endpoint fresh req).headers "X-Trace-ID" =
        some (chooseTraceId req fresh)) ∧
    (∀ s, dictGet req.headers "X-Trace-ID" = some s → s.isEmpty = false →
      chooseTraceId req fresh = s) ∧
    (dictGet req.headers "X-Trace-ID" = none → chooseTraceId req fresh = fresh) ∧
    (∀ s, dictGet req.headers "X-Trace-ID" = some s → s.isEmpty = true →
      chooseTraceId req fresh = fresh) ∧
    (∀ m, endpoint req = .exn m →
      dictGet (appHandle endpoint fresh req).headers "X-Trace-ID" = none) := by
  refine ⟨?_, ?_, ?_, ?_, ?_⟩
  · intro r hr
    simp [appHandle, serverErrorWrap, traceDispatch, hr, dictGet_dictSet_self]
  · intro s hs hne
    simp [chooseTraceId, hs, hne]
  · intro hs
    simp [chooseTraceId, hs]
  · intro s hs he
    simp [chooseTraceId, hs, he]
  · intro m hm
    simp [appHandle, serverErrorWrap, traceDispatch, hm, dictGet]

/-- C8 witness: the amended theorem applied to a succeeding endpoint with a
supplied non-empty inbound header, to one with no inbound header, and to an
endpoint raising an unhandled exception. -/
theorem trace_header_on_inner_responses_witness :
    okEndpoint ⟨[("X-Trace-ID", "trace-123")]⟩ = .resp ⟨200, "ok", []⟩ ∧
    dictGet (appHandle okEndpoint "uuid-9" ⟨[("X-Trace-ID", "trace-123")]⟩).headers
        "X-Trace-ID" =
      some (chooseTraceId ⟨[("X-Trace-ID", "trace-123")]⟩ "uuid-9") ∧
    chooseTraceId ⟨[("X-Trace-ID", "trace-123")]⟩ "uuid-9" = "trace-123" ∧
    chooseTraceId ⟨[]⟩ "uuid-9" = "uuid-9" ∧
    chooseTraceId ⟨[("X-Trace-ID", "")]⟩ "uuid-9" = "uuid-9" ∧
    dictGet (appHandle (fun _ => .exn "ValueError: Boom") "uuid-9"
        ⟨[]⟩).headers "X-Trace-ID" = none :=
  ⟨by decide,
    (trace_header_on_inner_responses okEndpoint "uuid-9"
      ⟨[("X-Trace-ID", "trace-123")]⟩).1 ⟨200, "ok", []⟩ (by decide),
    (trace_header_on_inner_responses okEndpoint "uuid-9"
      ⟨[("X-Trace-ID", "trace-123")]⟩).2.1 "trace-123" (by decide) (by decide),
    (trace_header_on_inner_responses okEndpoint "uuid-9" ⟨[]⟩).2.2.1 (by decide),
    (trace_header_on_inner_responses okEndpoint "uuid-9"
      ⟨[("X-Trace-ID", "")]⟩).2.2.2.1 "" (by decide) (by decide),
    (trace_header_on_inner_responses (fun _ => .exn "ValueError: Boom") "uuid-9"
      ⟨[]⟩).2.2.2.2 "ValueError: Boom" rfl⟩

/-! ## C9 -/

/-- C9: the keyword call `VaultAdapter(config=vault_config)` in
`VaultSettingsSource.__call__` raises `TypeError` because
`VaultAdapter.__init__` declares no parameter besides `self`; the exception is
swallowed by the blanket `except`, so the vault source yields nothing even
with the store reachable and returning a non-null value, and the resolved
setting comes from the environment variable instead of the secret store —
contradicting the declared priority (vault highest). -/
theorem vault_source_never_used :
    pyCallKw vaultAdapterInitParams ["config"] =
        .exn "TypeError: unexpected keyword argument" ∧
    c9env.vaultAddrSet = true ∧
    c9env.reachable = true ∧
    c9env.secrets "SECRET_KEY" = some "vault-secret" ∧
    vaultSettingsSourceCall c9env ["SECRET_KEY"] = [] ∧
    resolveField c9env c9src ["SECRET_KEY"] "SECRET_KEY" = "env-secret" := by
  refine ⟨by decide, by decide, by decide, by decide, by decide, by decide⟩
